import Mathlib

/- Shallow embedding of the LoggerLevelServiceCaller class from
   rqt_logger_level (file src/rqt_logger_level/logger_level_service_caller.py).
   The external RPC transport (rclpy client creation, wait_for_service polling,
   call_async futures) is summarized by small environment records that record
   the outcomes the code branches on: how many availability polls failed before
   one succeeded, whether the future was done when the bounded wait ended, and
   the result it carried.  Python dicts are modelled as association lists. -/

deriving instance DecidableEq for Except

/-- Model of the Python string method lower(): the level labels handled by
the class are ASCII, where lower() is exactly a character map. -/
def strLower (s : String) : String := ⟨s.data.map Char.toLower⟩

/-- Model of the Python string method upper(), as strLower. -/
def strUpper (s : String) : String := ⟨s.data.map Char.toUpper⟩

/-- Lexicographic comparison of character lists by code point, the order the
Python builtin sorted() uses on strings. -/
def charListLe : List Char → List Char → Bool
  | [], _ => true
  | _ :: _, [] => false
  | a :: as, b :: bs =>
    if a < b then true
    else if b < a then false
    else charListLe as bs

/-- Lexicographic code-point comparison of strings, the comparison the
Python builtin sorted() applies in get_node_names. -/
def strLe (a b : String) : Bool := charListLe a.data b.data

/-- The sorting relation of the Python builtin sorted() on strings, as a
proposition. -/
def pyLe (a b : String) : Prop := strLe a b = true

instance : DecidableRel pyLe :=
  fun a b => inferInstanceAs (Decidable (strLe a b = true))

/-- Lookup in a Python dict modelled as an association list with unique keys:
first matching key wins (the class keeps keys unique via dictSet). -/
def dictGet : List (String × String) → String → Option String
  | [], _ => none
  | p :: rest, k => if p.1 = k then some p.2 else dictGet rest k

/-- Assignment d[k] = v on a Python dict modelled as an association list:
replace the value of an existing key in place, otherwise append the pair. -/
def dictSet : List (String × String) → String → String → List (String × String)
  | [], k, v => [(k, v)]
  | p :: rest, k, v => if p.1 = k then (k, v) :: rest else p :: dictSet rest k v

/-- Lookup in the dict built by the Python expression
dict(node.get_service_names_and_types()): for duplicate keys the pair seen
last wins, which this recursion expresses by preferring the tail result. -/
def pyDictLookup : List (String × List String) → String → Option (List String)
  | [], _ => none
  | p :: rest, k =>
    match pyDictLookup rest k with
    | some v => some v
    | none => if p.1 = k then some p.2 else none

/-- Instance state of LoggerLevelServiceCaller: the fields assigned in
its constructor, namely self._node_names and self._current_levels. -/
structure CallerState where
  node_names : List String
  current_levels : List (String × String)
deriving DecidableEq

/-- Method get_levels: returns the five fixed level labels.  The Qt
translation wrapper self.tr is modelled as the identity. -/
def get_levels : List String :=
  ["DEBUG", "INFO", "WARN", "ERROR", "FATAL"]

/-- Service path built by the format string for set_logger_level. -/
def setServiceName (node : String) : String :=
  "/" ++ node ++ "/set_logger_level"

/-- Service path built by the format string for get_logger_level. -/
def getServiceName (node : String) : String :=
  "/" ++ node ++ "/get_logger_level"

/-- The request object service_class.Request(name=..., logger_level=...)
built in send_logger_change_message. -/
structure SetRequest where
  name : String
  logger_level : Nat
deriving DecidableEq

/-- One dispatched RPC: the service path the client was created for and the
request passed to call_async. -/
structure SetDispatch where
  service_name : String
  request : SetRequest
deriving DecidableEq

/-- Transport outcomes observed by one run of send_logger_change_message:
failedPolls is the number of wait_for_service calls returning False before
one returns True; done records future.done() when the bounded result wait
ends; resultPresent records whether future.result() is not None. -/
structure SetCallEnv where
  failedPolls : Nat
  done : Bool
  resultPresent : Bool
deriving DecidableEq

/-- Result of a run of send_logger_change_message that did not raise: the
returned boolean, the instance state afterwards, the qWarning messages
emitted in order, and the RPC dispatches performed. -/
structure SendOutcome where
  retval : Bool
  state : CallerState
  warnings : List String
  dispatched : List SetDispatch
deriving DecidableEq

/-- Modelled external collaborator: attribute lookup on the imported
rcl_interfaces LoggerLevelType enumeration, as used by the expression
getattr(LoggerLevelType, level.upper()).  Modelled from the spec: LevelLabel
is the fixed enumeration DEBUG, INFO, WARN, ERROR, FATAL, each mapped to its
numeric level code; any other attribute name is absent, which makes getattr
raise AttributeError. -/
def LoggerLevelType.lookup : String → Option Nat
  | "DEBUG" => some 10
  | "INFO" => some 20
  | "WARN" => some 30
  | "ERROR" => some 40
  | "FATAL" => some 50
  | _ => none

/-- Modelled external collaborator: LoggingSeverity(value).name from rclpy,
as used by get_logger_level.  Value 0 is named UNSET; the five positive
codes carry the five level labels; any other value raises ValueError,
modelled as absence. -/
def LoggingSeverity.name_of : Nat → Option String
  | 0 => some "UNSET"
  | 10 => some "DEBUG"
  | 20 => some "INFO"
  | 30 => some "WARN"
  | 40 => some "ERROR"
  | 50 => some "FATAL"
  | _ => none

/-- String rendering of a request, standing in for the %r serialization used
in the diagnostic qWarning messages. -/
def SetRequest.serialize (r : SetRequest) : String :=
  "SetLoggerLevel.Request(name=" ++ r.name ++ ", logger_level=" ++
    toString r.logger_level ++ ")"

/-- Warning emitted by each unsuccessful wait_for_service poll in
send_logger_change_message. -/
def sendWaitWarning (node : String) : String :=
  "LoggerLevelServiceCaller.send_logger_change_message()Service (" ++
    setServiceName node ++ ", rcl_interfaces/SetLoggerLevel) not available"

/-- First warning of the failure path of send_logger_change_message,
carrying the serialized request. -/
def sendRequestWarning (r : SetRequest) : String :=
  "LoggerLevelServiceCaller.send_logger_change_message(): request: " ++
    r.serialize

/-- Second warning of the failure path of send_logger_change_message,
naming the service path. -/
def sendErrorWarning (service_name : String) : String :=
  "LoggerLevelServiceCaller.send_logger_change_message(): error calling service " ++
    service_name

/-- Warning emitted by each unsuccessful wait_for_service poll in
get_logger_level. -/
def getWaitWarning (node : String) : String :=
  "LoggerLevelServiceCaller.get_logger_level()Service (" ++
    getServiceName node ++ ", rcl_interfaces/GetLoggerLevel) not available"

/-- First warning of the failure path of get_logger_level, carrying the
serialized request. -/
def getRequestWarning (node : String) : String :=
  "LoggerLevelServiceCaller.get_logger_level(): request: GetLoggerLevel.Request(name=" ++
    node ++ ")"

/-- Second warning of the failure path of get_logger_level, naming the
service path. -/
def getErrorWarning (service_name : String) : String :=
  "LoggerLevelServiceCaller.get_logger_level(): error calling service " ++
    service_name

/-- The idempotence guard of send_logger_change_message: the condition
node in self._current_levels and
self._current_levels[node].lower() == level.lower(). -/
def guardHit (st : CallerState) (node level : String) : Bool :=
  match dictGet st.current_levels node with
  | some cur => strLower cur == strLower level
  | none => false

/-- Continuation condition of the wait-for-service loop of
send_logger_change_message (while not cli.wait_for_service(timeout_sec=1.0)).
The current process-wide shutdown state rclpy.ok() is passed as an argument
to record what the iteration could consult; the source consults only the
wait_for_service result. -/
def sendWaitContinues (serviceAvailable : Bool) (_rclpyOk : Bool) : Bool :=
  !serviceAvailable

/-- Continuation condition of the wait-for-service loop of get_logger_level
(while not cli.wait_for_service(timeout_sec=3.0)).  As with
sendWaitContinues, the shutdown state is an argument the source ignores. -/
def getWaitContinues (serviceAvailable : Bool) (_rclpyOk : Bool) : Bool :=
  !serviceAvailable

/-- Continuation condition of the bounded result wait used by both methods:
while time_ellapsed < timeout and rclpy.ok() and (not future.done()). -/
def resultWaitContinues (withinTimeout rclpyOk futureDone : Bool) : Bool :=
  withinTimeout && rclpyOk && !futureDone

/-- Shallow embedding of send_logger_change_message.  Control flow follows
the source: the idempotence guard returns False at once with no effects;
getattr on an unrecognized upper-cased level raises AttributeError, modelled
as Except.error; otherwise the request is built with the literal string node
as its name field (the source writes name='node'), the availability polls
emit one warning each, and the run returns True exactly when the future was
done with a non-None result, emitting two diagnostic warnings otherwise.
The instance state is returned unchanged on every path, as the source never
assigns self._current_levels here. -/
def send_logger_change_message (env : SetCallEnv) (st : CallerState)
    (node level : String) : Except String SendOutcome :=
  let service_name := setServiceName node
  if guardHit st node level then
    Except.ok { retval := false, state := st, warnings := [], dispatched := [] }
  else
    match LoggerLevelType.lookup (strUpper level) with
    | none =>
      Except.error ("AttributeError: type object LoggerLevelType has no attribute " ++
        strUpper level)
    | some logger_level =>
      let request : SetRequest := { name := "node", logger_level := logger_level }
      let waitWarnings := List.replicate env.failedPolls (sendWaitWarning node)
      if env.done && env.resultPresent then
        Except.ok { retval := true, state := st, warnings := waitWarnings,
                    dispatched := [{ service_name := service_name, request := request }] }
      else
        Except.ok { retval := false, state := st,
                    warnings := waitWarnings ++
                      [sendRequestWarning request, sendErrorWarning service_name],
                    dispatched := [{ service_name := service_name, request := request }] }

/-- Transport outcomes observed by one run of get_logger_level: failedPolls
availability polls failed before one succeeded; done records future.done()
when the bounded wait ends; result carries response.logger_level when
future.result() is not None. -/
structure GetCallEnv where
  failedPolls : Nat
  done : Bool
  result : Option Nat
deriving DecidableEq

/-- Result of a run of get_logger_level that did not raise: the returned
string, the instance state afterwards and the warnings emitted in order. -/
structure GetOutcome where
  retval : String
  state : CallerState
  warnings : List String
deriving DecidableEq

/-- Shallow embedding of get_logger_level.  On a completed future with a
non-None result the severity name of the response code is stored in
self._current_levels under the node name and returned (an invalid code
raises ValueError, modelled as Except.error); otherwise two diagnostic
warnings are emitted, the state is unchanged and the empty string is
returned. -/
def get_logger_level (env : GetCallEnv) (st : CallerState)
    (node_name : String) : Except String GetOutcome :=
  let service_name := getServiceName node_name
  let waitWarnings := List.replicate env.failedPolls (getWaitWarning node_name)
  let failure : Except String GetOutcome :=
    Except.ok { retval := "", state := st,
                warnings := waitWarnings ++
                  [getRequestWarning node_name, getErrorWarning service_name] }
  match env.result with
  | some code =>
    if env.done then
      match LoggingSeverity.name_of code with
      | some levelName =>
        Except.ok { retval := levelName,
                    state := { st with
                      current_levels := dictSet st.current_levels node_name levelName },
                    warnings := waitWarnings }
      | none =>
        Except.error ("ValueError: " ++ toString code ++
          " is not a valid LoggingSeverity")
    else failure
  | none => failure

/-- Shallow embedding of get_node_names.  The registry snapshot is passed in:
liveNames models self._node.get_node_names() and services models
self._node.get_service_names_and_types().  The method sorts the live names,
builds a dict of the service pairs and keeps the names whose
set_logger_level service path is a key whose type list contains the
SetLoggerLevel type; the result is also assigned to self._node_names.
The builtin sorted() is modelled by insertion sort: names are linearly
ordered, and equal names are identical strings, so every sorting algorithm
returns the same list. -/
def get_node_names (liveNames : List String)
    (services : List (String × List String)) : List String :=
  let nodes := liveNames.insertionSort pyLe
  nodes.filter (fun node_name =>
    match pyDictLookup services (setServiceName node_name) with
    | some types => types.contains "rcl_interfaces/SetLoggerLevel"
    | none => false)

/-- Helper: charListLe decides the negation of the ambient lexicographic
strict order on character lists. -/
theorem charListLe_iff : ∀ as bs : List Char, charListLe as bs = true ↔ ¬ bs < as
  | [], bs => by
    simp only [charListLe]
    exact iff_of_true trivial (fun h => by cases h)
  | a :: as, [] => by
    simp only [charListLe]
    exact iff_of_false (by simp) (fun h => h List.Lex.nil)
  | a :: as, b :: bs => by
    simp only [charListLe]
    by_cases hab : a < b
    · simp only [if_pos hab]
      refine iff_of_true trivial (fun h => ?_)
      cases h with
      | cons h2 => exact absurd hab (lt_irrefl a)
      | rel h2 => exact absurd h2 (lt_asymm hab)
    · by_cases hba : b < a
      · simp only [if_neg hab, if_pos hba]
        exact iff_of_false (by simp) (fun h => h (List.Lex.rel hba))
      · simp only [if_neg hab, if_neg hba]
        have heq : a = b := le_antisymm (not_lt.mp hba) (not_lt.mp hab)
        subst heq
        rw [charListLe_iff as bs]
        constructor
        · intro h hlt
          cases hlt with
          | cons h2 => exact absurd h2 h
          | rel h2 => exact absurd h2 hba
        · intro h hlt
          exact h (List.Lex.cons hlt)

/-- Helper: strLe agrees with the library order on strings. -/
theorem strLe_iff_le (a b : String) : strLe a b = true ↔ a ≤ b := by
  constructor
  · intro h hba
    rw [String.lt_iff_toList_lt] at hba
    exact (charListLe_iff a.data b.data).mp h hba
  · intro h
    refine (charListLe_iff a.data b.data).mpr (fun hlex => ?_)
    exact h (String.lt_iff_toList_lt.mpr hlex)

instance : IsTotal String pyLe :=
  ⟨fun a b => (le_total a b).imp (strLe_iff_le a b).mpr (strLe_iff_le b a).mpr⟩

instance : IsTrans String pyLe :=
  ⟨fun a b c hab hbc => (strLe_iff_le a c).mpr
    (le_trans ((strLe_iff_le a b).mp hab) ((strLe_iff_le b c).mp hbc))⟩

/-- Helper: reading back the key just assigned in the cache dict. -/
theorem dictGet_dictSet : ∀ (d : List (String × String)) (k v : String),
    dictGet (dictSet d k v) k = some v
  | [], k, v => by simp [dictSet, dictGet]
  | p :: rest, k, v => by
    by_cases h : p.1 = k
    · simp [dictSet, dictGet, h]
    · simp [dictSet, dictGet, h, dictGet_dictSet rest k v]

/-- Helper: a successful last-wins lookup returns a pair of the list. -/
theorem pyDictLookup_some_mem : ∀ {pairs : List (String × List String)} {k v},
    pyDictLookup pairs k = some v → (k, v) ∈ pairs
  | [], k, v => by simp [pyDictLookup]
  | p :: rest, k, v => by
    simp only [pyDictLookup]
    cases hrec : pyDictLookup rest k with
    | some w =>
      intro h
      cases h
      exact List.mem_cons_of_mem p (pyDictLookup_some_mem hrec)
    | none =>
      by_cases hk : p.1 = k
      · simp only [hk, if_pos rfl]
        intro h
        cases h
        subst hk
        exact List.mem_cons_self p rest
      · simp [hk]

/-- Helper: under duplicate-free keys the last-wins lookup finds every pair
of the list. -/
theorem pyDictLookup_eq_of_mem : ∀ {pairs : List (String × List String)},
    (pairs.map Prod.fst).Nodup → ∀ {k v}, (k, v) ∈ pairs →
    pyDictLookup pairs k = some v
  | [], _, k, v => by simp
  | p :: rest, hkeys, k, v => by
    intro hmem
    simp only [List.map_cons, List.nodup_cons] at hkeys
    simp only [pyDictLookup]
    rcases List.mem_cons.mp hmem with heq | htail
    · cases hrec : pyDictLookup rest k with
      | some w =>
        have hkmem : k ∈ rest.map Prod.fst :=
          List.mem_map_of_mem Prod.fst (pyDictLookup_some_mem hrec)
        refine absurd ?_ hkeys.1
        rw [show p.1 = k from by rw [← heq]]
        exact hkmem
      | none =>
        simp [← heq]
    · rw [pyDictLookup_eq_of_mem hkeys.2 htail]

/-- Helper: send_logger_change_message never modifies the instance state. -/
theorem send_ok_state_eq (env : SetCallEnv) (st : CallerState) (node level : String)
    (out : SendOutcome)
    (h : send_logger_change_message env st node level = Except.ok out) :
    out.state = st := by
  unfold send_logger_change_message at h
  split at h
  · cases Except.ok.inj h
    rfl
  · split at h
    · simp at h
    · split at h
      · cases Except.ok.inj h
        rfl
      · cases Except.ok.inj h
        rfl

/-- Helper: the idempotence guard only depends on the lower-cased level. -/
theorem guardHit_congr (st : CallerState) (node : String) {l1 l2 : String}
    (h : strLower l2 = strLower l1) : guardHit st node l2 = guardHit st node l1 := by
  unfold guardHit
  cases dictGet st.current_levels node <;> simp [h]

/-- C1 counterexample: with an empty cache, a fully successful run of
send_logger_change_message for node a and level INFO returns true, yet the
cache still has no entry for a, so a subsequent cache read does not return
the requested level. -/
theorem send_no_cache_update_cex :
    (send_logger_change_message ⟨0, true, true⟩ ⟨[], []⟩ "a" "INFO").map
      (fun o => (o.retval, dictGet o.state.current_levels "a")) =
      Except.ok (true, none) ∧
    (none : Option String) ≠ some "INFO" := by
  decide

/-- C1 amended: send_logger_change_message never modifies the cache; on
success (true) and on failure (false) alike, the cache entry for the node
keeps its prior value — the cache is only written by get_logger_level. -/
theorem send_preserves_cache (env : SetCallEnv) (st : CallerState)
    (node level : String) (out : SendOutcome)
    (h : send_logger_change_message env st node level = Except.ok out) :
    out.state = st ∧
    dictGet out.state.current_levels node = dictGet st.current_levels node := by
  have hst := send_ok_state_eq env st node level out h
  exact ⟨hst, by rw [hst]⟩

/-- C1 witness. -/
theorem send_preserves_cache_witness :
    (send_logger_change_message ⟨0, true, true⟩ ⟨[], []⟩ "a" "INFO" =
      Except.ok ⟨true, ⟨[], []⟩, [], [⟨"/a/set_logger_level", ⟨"node", 20⟩⟩]⟩) ∧
    ((⟨true, ⟨[], []⟩, [], [⟨"/a/set_logger_level", ⟨"node", 20⟩⟩]⟩ :
        SendOutcome).state = ⟨[], []⟩ ∧
      dictGet (⟨true, ⟨[], []⟩, [], [⟨"/a/set_logger_level", ⟨"node", 20⟩⟩]⟩ :
        SendOutcome).state.current_levels "a" =
        dictGet (⟨[], []⟩ : CallerState).current_levels "a") :=
  ⟨by decide, send_preserves_cache ⟨0, true, true⟩ ⟨[], []⟩ "a" "INFO" _ (by decide)⟩

/-- C2 counterexample: with an empty cache, a successful set of node a to
INFO followed immediately by a second identical call does not make the
second call return false without an RPC: the second call dispatches a
request again and returns true, because the first call left the cache
unchanged. -/
theorem send_second_call_guard_cex :
    (send_logger_change_message ⟨0, true, true⟩ ⟨[], []⟩ "a" "INFO").map
      (fun o => o.retval) = Except.ok true ∧
    ((send_logger_change_message ⟨0, true, true⟩ ⟨[], []⟩ "a" "INFO").bind
      (fun o1 => send_logger_change_message ⟨0, true, true⟩ o1.state "a" "INFO")).map
      (fun o2 => (o2.retval, o2.dispatched.length)) = Except.ok (true, 1) ∧
    ((true, 1) : Bool × Nat) ≠ (false, 0) := by
  refine ⟨by decide, by decide, by decide⟩

/-- C2 amended: a successful send_logger_change_message does not update the
cache, so when the cache held no case-insensitive match before the first
call, an immediately following call with a case-equal level is not
suppressed by the idempotence guard: it dispatches an RPC again and its
return value is decided by its own call outcome. -/
theorem send_second_call_repeats_rpc (env1 env2 : SetCallEnv) (st : CallerState)
    (node level level2 : String) (out1 : SendOutcome) (code : Nat)
    (hguard : guardHit st node level = false)
    (hcase : strLower level2 = strLower level)
    (hcode : LoggerLevelType.lookup (strUpper level2) = some code)
    (h1 : send_logger_change_message env1 st node level = Except.ok out1)
    (hsucc : out1.retval = true) :
    ∃ out2, send_logger_change_message env2 out1.state node level2 = Except.ok out2 ∧
      out2.dispatched = [⟨setServiceName node, ⟨"node", code⟩⟩] ∧
      out2.retval = (env2.done && env2.resultPresent) := by
  have hst : out1.state = st := send_ok_state_eq env1 st node level out1 h1
  have hguard2 : guardHit st node level2 = false :=
    (guardHit_congr st node hcase).trans hguard
  rw [hst]
  unfold send_logger_change_message
  simp only [hguard2, hcode, Bool.false_eq_true, if_false]
  by_cases hd : env2.done && env2.resultPresent
  · rw [if_pos hd]
    exact ⟨_, rfl, rfl, hd.symm⟩
  · rw [if_neg hd]
    refine ⟨_, rfl, rfl, ?_⟩
    exact (Bool.eq_false_iff.mpr hd).symm

/-- C2 witness. -/
theorem send_second_call_repeats_rpc_witness :
    guardHit ⟨[], []⟩ "a" "INFO" = false ∧
    strLower "info" = strLower "INFO" ∧
    LoggerLevelType.lookup (strUpper "info") = some 20 ∧
    (send_logger_change_message ⟨0, true, true⟩ ⟨[], []⟩ "a" "INFO" =
      Except.ok ⟨true, ⟨[], []⟩, [], [⟨"/a/set_logger_level", ⟨"node", 20⟩⟩]⟩) ∧
    (∃ out2, send_logger_change_message ⟨0, true, true⟩
        (⟨true, ⟨[], []⟩, [], [⟨"/a/set_logger_level", ⟨"node", 20⟩⟩]⟩ :
          SendOutcome).state "a" "info" = Except.ok out2 ∧
      out2.dispatched = [⟨setServiceName "a", ⟨"node", 20⟩⟩] ∧
      out2.retval = (true && true)) :=
  ⟨by decide, by decide, by decide, by decide,
    send_second_call_repeats_rpc ⟨0, true, true⟩ ⟨0, true, true⟩ ⟨[], []⟩
      "a" "INFO" "info" _ 20 (by decide) (by decide) (by decide) (by decide) (by decide)⟩

/-- C3: when the cache holds a value for the node that case-insensitively
equals the requested level, send_logger_change_message returns false
immediately, dispatches no RPC, leaves the state unchanged and emits no
warning. -/
theorem send_idempotence_guard (env : SetCallEnv) (st : CallerState)
    (node level cur : String)
    (hmem : dictGet st.current_levels node = some cur)
    (hcase : strLower cur = strLower level) :
    send_logger_change_message env st node level =
      Except.ok ⟨false, st, [], []⟩ := by
  have hguard : guardHit st node level = true := by
    unfold guardHit
    rw [hmem]
    simp [hcase]
  unfold send_logger_change_message
  rw [hguard]
  simp

/-- C3 witness. -/
theorem send_idempotence_guard_witness :
    dictGet (⟨[], [("a", "Info")]⟩ : CallerState).current_levels "a" = some "Info" ∧
    strLower "Info" = strLower "INFO" ∧
    send_logger_change_message ⟨0, true, true⟩ ⟨[], [("a", "Info")]⟩ "a" "INFO" =
      Except.ok ⟨false, ⟨[], [("a", "Info")]⟩, [], []⟩ :=
  ⟨by decide, by decide,
    send_idempotence_guard ⟨0, true, true⟩ ⟨[], [("a", "Info")]⟩ "a" "INFO" "Info"
      (by decide) (by decide)⟩

/-- C4: for a registry snapshot with duplicate-free live names and
duplicate-free service paths, get_node_names returns a lexicographically
sorted, duplicate-free list containing exactly the live node names whose
set_logger_level service path is advertised with the SetLoggerLevel type;
names advertising the service but not live contribute nothing, and when no
name matches the characterization forces the empty list. -/
theorem get_node_names_spec (live : List String)
    (svcs : List (String × List String))
    (hlive : live.Nodup) (hkeys : (svcs.map Prod.fst).Nodup) :
    (get_node_names live svcs).Sorted (· ≤ ·) ∧
    (get_node_names live svcs).Nodup ∧
    (∀ n, n ∈ get_node_names live svcs ↔
      n ∈ live ∧ ∃ types, (setServiceName n, types) ∈ svcs ∧
        "rcl_interfaces/SetLoggerLevel" ∈ types) := by
  refine ⟨?_, ?_, ?_⟩
  · exact ((List.sorted_insertionSort pyLe live).filter _).imp
      (fun h => (strLe_iff_le _ _).mp h)
  · exact ((List.perm_insertionSort pyLe live).nodup_iff.mpr hlive).filter _
  · intro n
    unfold get_node_names
    rw [List.mem_filter, List.mem_insertionSort]
    refine and_congr_right (fun _ => ?_)
    constructor
    · intro hp
      cases hlk : pyDictLookup svcs (setServiceName n) with
      | none => rw [hlk] at hp; cases hp
      | some types =>
        rw [hlk] at hp
        exact ⟨types, pyDictLookup_some_mem hlk,
          List.elem_iff.mp hp⟩
    · rintro ⟨types, hmem, htype⟩
      rw [pyDictLookup_eq_of_mem hkeys hmem]
      exact List.elem_iff.mpr htype

/-- C4 witness, on the scenario of the spec: live names b and a, one
advertised service for a. -/
theorem get_node_names_spec_witness :
    (["b", "a"] : List String).Nodup ∧
    (([("/a/set_logger_level", ["rcl_interfaces/SetLoggerLevel"])] :
        List (String × List String)).map Prod.fst).Nodup ∧
    ((get_node_names ["b", "a"]
        [("/a/set_logger_level", ["rcl_interfaces/SetLoggerLevel"])]).Sorted (· ≤ ·) ∧
      (get_node_names ["b", "a"]
        [("/a/set_logger_level", ["rcl_interfaces/SetLoggerLevel"])]).Nodup ∧
      (∀ n, n ∈ get_node_names ["b", "a"]
          [("/a/set_logger_level", ["rcl_interfaces/SetLoggerLevel"])] ↔
        n ∈ ["b", "a"] ∧ ∃ types,
          (setServiceName n, types) ∈
            [("/a/set_logger_level", ["rcl_interfaces/SetLoggerLevel"])] ∧
          "rcl_interfaces/SetLoggerLevel" ∈ types)) :=
  ⟨by decide, by decide,
    get_node_names_spec ["b", "a"]
      [("/a/set_logger_level", ["rcl_interfaces/SetLoggerLevel"])]
      (by decide) (by decide)⟩

/-- C5 counterexample: with node a absent from the cache and a dispatched
call that never completes, send_logger_change_message returns false and
leaves the cache unchanged, but emits two warnings, not one. -/
theorem send_failure_one_warning_cex :
    (send_logger_change_message ⟨0, false, true⟩ ⟨[], []⟩ "a" "INFO").map
      (fun o => (o.retval, o.state.current_levels, o.warnings.length)) =
      Except.ok (false, [], 2) ∧
    (2 : Nat) ≠ 1 := by
  decide

/-- C5 amended: for a node not in the cache and a recognized level, when
the dispatched call does not complete in time or completes with an absent
result, send_logger_change_message returns false, leaves the cache
unchanged, and emits exactly two diagnostic warnings after the
availability phase, plus one warning per unsuccessful availability poll. -/
theorem send_failure_behavior (env : SetCallEnv) (st : CallerState)
    (node level : String) (code : Nat)
    (hnc : dictGet st.current_levels node = none)
    (hcode : LoggerLevelType.lookup (strUpper level) = some code)
    (hfail : env.done = false ∨ env.resultPresent = false) :
    send_logger_change_message env st node level = Except.ok
      ⟨false, st,
        List.replicate env.failedPolls (sendWaitWarning node) ++
          [sendRequestWarning ⟨"node", code⟩, sendErrorWarning (setServiceName node)],
        [⟨setServiceName node, ⟨"node", code⟩⟩]⟩ ∧
    (List.replicate env.failedPolls (sendWaitWarning node) ++
      [sendRequestWarning ⟨"node", code⟩,
        sendErrorWarning (setServiceName node)]).length = env.failedPolls + 2 := by
  have hguard : guardHit st node level = false := by
    unfold guardHit
    rw [hnc]
  have hd : (env.done && env.resultPresent) = false := by
    rcases hfail with h | h <;> simp [h]
  constructor
  · unfold send_logger_change_message
    simp only [hguard, hcode, Bool.false_eq_true, if_false, hd]
  · simp [List.length_append, List.length_replicate]

/-- C5 witness. -/
theorem send_failure_behavior_witness :
    dictGet (⟨[], []⟩ : CallerState).current_levels "a" = none ∧
    LoggerLevelType.lookup (strUpper "INFO") = some 20 ∧
    ((false : Bool) = false ∨ (true : Bool) = false) ∧
    (send_logger_change_message ⟨0, false, true⟩ ⟨[], []⟩ "a" "INFO" = Except.ok
      ⟨false, ⟨[], []⟩,
        List.replicate 0 (sendWaitWarning "a") ++
          [sendRequestWarning ⟨"node", 20⟩, sendErrorWarning (setServiceName "a")],
        [⟨setServiceName "a", ⟨"node", 20⟩⟩]⟩ ∧
      (List.replicate 0 (sendWaitWarning "a") ++
        [sendRequestWarning ⟨"node", 20⟩,
          sendErrorWarning (setServiceName "a")]).length = 0 + 2) :=
  ⟨by decide, by decide, Or.inl rfl,
    send_failure_behavior ⟨0, false, true⟩ ⟨[], []⟩ "a" "INFO" 20
      (by decide) (by decide) (Or.inl rfl)⟩

/-- C6 counterexample: at a poll iteration where the service is unavailable
and the process-wide shutdown signal has fired, both wait-for-service loops
still continue, so the loop does run past a shutdown. -/
theorem wait_loop_ignores_shutdown_cex :
    sendWaitContinues false false = true ∧ getWaitContinues false false = true := by
  decide

/-- C6 amended: the wait-for-service loop guards of both methods depend
only on the availability poll result and ignore the shutdown signal, so
they terminate exactly when the service becomes available; the shutdown
signal is consulted per iteration only by the bounded result-wait loops,
which stop as soon as it fires. -/
theorem wait_loop_guard_spec :
    (∀ avail ok : Bool,
      sendWaitContinues avail ok = !avail ∧
      getWaitContinues avail ok = !avail ∧
      sendWaitContinues avail ok = sendWaitContinues avail true ∧
      getWaitContinues avail ok = getWaitContinues avail true) ∧
    (∀ t d : Bool, resultWaitContinues t false d = false) := by
  constructor
  · intro avail ok
    exact ⟨rfl, rfl, rfl, rfl⟩
  · intro t d
    simp [resultWaitContinues]

/-- C7: evaluated at node a with level INFO and an empty cache, the
dispatched request carries the literal string node as its name field, not
the target node a, while the level code is the one obtained from the
upper-cased level label. -/
theorem send_request_name_literal :
    (send_logger_change_message ⟨0, true, true⟩ ⟨[], []⟩ "a" "INFO").map
      (fun o => o.dispatched) =
      Except.ok [⟨"/a/set_logger_level", ⟨"node", 20⟩⟩] ∧
    "node" ≠ "a" ∧
    LoggerLevelType.lookup (strUpper "INFO") = some 20 := by
  refine ⟨by decide, by decide, by decide⟩

/-- C8: when the get-level query fails (the future is not done in time, or
its result is absent), get_logger_level returns the empty string and leaves
the instance state, hence every cache entry, unchanged. -/
theorem get_logger_level_failure_preserves_cache (env : GetCallEnv)
    (st : CallerState) (n : String)
    (hfail : env.done = false ∨ env.result = none) :
    get_logger_level env st n = Except.ok
      ⟨"", st,
        List.replicate env.failedPolls (getWaitWarning n) ++
          [getRequestWarning n, getErrorWarning (getServiceName n)]⟩ := by
  rcases hfail with hd | hr
  · cases hres : env.result with
    | none => simp [get_logger_level, hres]
    | some code => simp [get_logger_level, hres, hd]
  · simp [get_logger_level, hr]

/-- C8 witness: a failing refresh for node a leaves its previously cached
level visible. -/
theorem get_logger_level_failure_preserves_cache_witness :
    ((false : Bool) = false ∨ (none : Option Nat) = none) ∧
    get_logger_level ⟨0, false, none⟩ ⟨[], [("a", "INFO")]⟩ "a" = Except.ok
      ⟨"", ⟨[], [("a", "INFO")]⟩,
        List.replicate 0 (getWaitWarning "a") ++
          [getRequestWarning "a", getErrorWarning (getServiceName "a")]⟩ :=
  ⟨Or.inl rfl,
    get_logger_level_failure_preserves_cache ⟨0, false, none⟩
      ⟨[], [("a", "INFO")]⟩ "a" (Or.inl rfl)⟩

/-- C9: for a node absent from the cache, a level whose upper-cased form is
not a member of the level enumeration makes send_logger_change_message
raise (AttributeError), while with a recognized level every outcome of the
call is absorbed into a plain boolean return, never an exception. -/
theorem send_malformed_level_raises (env : SetCallEnv) (st : CallerState)
    (node level : String)
    (hnc : dictGet st.current_levels node = none) :
    (LoggerLevelType.lookup (strUpper level) = none →
      send_logger_change_message env st node level = Except.error
        ("AttributeError: type object LoggerLevelType has no attribute " ++
          strUpper level)) ∧
    (∀ code, LoggerLevelType.lookup (strUpper level) = some code →
      send_logger_change_message env st node level = Except.ok
        ⟨env.done && env.resultPresent, st,
          (if env.done && env.resultPresent then
            List.replicate env.failedPolls (sendWaitWarning node)
          else
            List.replicate env.failedPolls (sendWaitWarning node) ++
              [sendRequestWarning ⟨"node", code⟩,
                sendErrorWarning (setServiceName node)]),
          [⟨setServiceName node, ⟨"node", code⟩⟩]⟩) := by
  have hguard : guardHit st node level = false := by
    unfold guardHit
    rw [hnc]
  constructor
  · intro hlk
    unfold send_logger_change_message
    simp only [hguard, hlk, Bool.false_eq_true, if_false]
  · intro code hlk
    unfold send_logger_change_message
    simp only [hguard, hlk, Bool.false_eq_true, if_false]
    by_cases hd : env.done && env.resultPresent
    · simp [hd]
    · simp [hd, Bool.eq_false_iff.mpr hd]

/-- C9 witness. -/
theorem send_malformed_level_raises_witness :
    dictGet (⟨[], []⟩ : CallerState).current_levels "a" = none ∧
    LoggerLevelType.lookup (strUpper "Bogus") = none ∧
    send_logger_change_message ⟨0, true, true⟩ ⟨[], []⟩ "a" "Bogus" =
      Except.error
        ("AttributeError: type object LoggerLevelType has no attribute " ++
          strUpper "Bogus") :=
  ⟨by decide, by decide,
    (send_malformed_level_raises ⟨0, true, true⟩ ⟨[], []⟩ "a" "Bogus"
      (by decide)).1 (by decide)⟩

/-- C10: every value get_logger_level stores in the cache and returns on a
successful query is the severity name of the numeric code carried in the
response; code 0 is named UNSET, which is not among the five labels of
get_levels, so the cached and returned value need not be one of them. -/
theorem get_logger_level_stores_severity_name (env : GetCallEnv)
    (st : CallerState) (n : String) (code : Nat) (levelName : String)
    (hres : env.result = some code) (hdone : env.done = true)
    (hname : LoggingSeverity.name_of code = some levelName) :
    get_logger_level env st n = Except.ok
      ⟨levelName, ⟨st.node_names, dictSet st.current_levels n levelName⟩,
        List.replicate env.failedPolls (getWaitWarning n)⟩ ∧
    dictGet (dictSet st.current_levels n levelName) n = some levelName ∧
    LoggingSeverity.name_of 0 = some "UNSET" ∧
    "UNSET" ∉ get_levels := by
  refine ⟨?_, dictGet_dictSet st.current_levels n levelName, by decide, by decide⟩
  simp [get_logger_level, hres, hdone, hname]

/-- C10 witness: a response carrying code 0 caches and returns UNSET. -/
theorem get_logger_level_stores_severity_name_witness :
    (some 0 : Option Nat) = some 0 ∧
    (true : Bool) = true ∧
    LoggingSeverity.name_of 0 = some "UNSET" ∧
    (get_logger_level ⟨0, true, some 0⟩ ⟨[], []⟩ "a" = Except.ok
      ⟨"UNSET", ⟨[], dictSet [] "a" "UNSET"⟩,
        List.replicate 0 (getWaitWarning "a")⟩ ∧
      dictGet (dictSet [] "a" "UNSET") "a" = some "UNSET" ∧
      LoggingSeverity.name_of 0 = some "UNSET" ∧
      "UNSET" ∉ get_levels) :=
  ⟨rfl, rfl, by decide,
    get_logger_level_stores_severity_name ⟨0, true, some 0⟩ ⟨[], []⟩ "a" 0 "UNSET"
      rfl rfl (by decide)⟩
